import Mathlib

/-!
Shallow embedding of the batch ingestion pipeline
(`templates/batch_ingestion/runner.py`): storage-path helpers, the
object-storage path parser, destination derivation, the retry wrapper,
and the `run_once` orchestration, together with a content model of the
CSV transform.  External collaborators (the gzip library, the columnar
serializer, the object-storage client, `time.sleep`) are modelled by
their interface contracts; everything else is translated directly from
the source.
-/

namespace BatchIngest

/-! ## `os.path` helpers (POSIX semantics, as used by the runner) -/

/-- Characters of a path after the last slash (list level);
mirrors `os.path.basename`. -/
def basenameL (l : List Char) : List Char :=
  (l.reverse.takeWhile (fun c => c != '/')).reverse

/-- Characters of a path up to and including the last slash (list level). -/
def dirPartL (l : List Char) : List Char :=
  (l.reverse.dropWhile (fun c => c != '/')).reverse

/-- Split a slash-free base name into (stem, extension), mirroring
CPython `posixpath.splitext` on a name with no directory part: the split
happens at the last dot, but only if some character before that dot is
not itself a dot (so dotfiles such as `.bashrc` have no extension). -/
def splitextBaseL (base : List Char) : List Char × List Char :=
  let rev := base.reverse
  let after := rev.takeWhile (fun c => c != '.')
  match rev.dropWhile (fun c => c != '.') with
  | [] => (base, [])
  | _ :: tl =>
    if tl.reverse.any (fun c => c != '.') then
      (tl.reverse, '.' :: after.reverse)
    else
      (base, [])

/-- `os.path.basename` on strings. -/
def basename (s : String) : String :=
  String.mk (basenameL s.data)

/-- `os.path.splitext` on strings: (root, ext) where root keeps the
directory part. -/
def splitext (s : String) : String × String :=
  let b := splitextBaseL (basenameL s.data)
  (String.mk (dirPartL s.data ++ b.1), String.mk b.2)

/-- Last character of a string is `/` (used for `endswith("/")`). -/
def lastIsSlash (s : String) : Bool :=
  s.data.getLast? == some '/'

/-- First character of a string is `/` (used for `startswith("/")`). -/
def headIsSlash (s : String) : Bool :=
  s.data.take 1 = ['/']

/-- `posixpath.join a b` for the two-argument case used by the runner. -/
def joinPath (a b : String) : String :=
  if headIsSlash b then b
  else if a == "" || lastIsSlash a then a ++ b
  else a ++ "/" ++ b

/-! ## Object-storage path parsing (`S3StorageAdapter._parse_s3_path`) -/

/-- Strip one leading `s3://` scheme if present
(`if s3_path.startswith("s3://"): s3_path = s3_path[5:]`). -/
def stripScheme (l : List Char) : List Char :=
  if l.take 5 = "s3://".data then l.drop 5 else l

/-- `_parse_s3_path`: strip one leading `s3://` scheme if present, then
split the remainder at the first slash into (bucket, key); with no slash
the whole remainder is the bucket and the key is empty.  Mirrors
`s3_path.split("/", 1)`. -/
def parseS3Path (s : String) : String × String :=
  (String.mk ((stripScheme s.data).takeWhile (fun c => c != '/')),
   match (stripScheme s.data).dropWhile (fun c => c != '/') with
   | [] => ""
   | _ :: k => String.mk k)

/-! ## Python dictionary-access helpers

The config sections are Python dicts; `.get` returns `None` for a
missing key, and `x or y` falls through on falsy values (`None`, `""`).
-/

/-- Python truthiness of an optional string (`None` and `""` are falsy). -/
def pyTruthy (o : Option String) : Bool :=
  match o with
  | some s => s != ""
  | none => false

/-- Python `o or dflt` for an optional string. -/
def pyOrStr (o : Option String) (dflt : String) : String :=
  match o with
  | some s => if s == "" then dflt else s
  | none => dflt

/-- Python f-string rendering of an optional value (`None` prints as
the literal text). -/
def pyShow (o : Option String) : String :=
  match o with
  | some s => s
  | none => "None"

/-! ## Pipeline configuration (`PipelineConfig` and derived options) -/

/-- The `source` section of the config: `type`, `s3_bucket`, `s3_key`,
`local_path`, all optional (missing keys read as `None`). -/
structure SourceSpec where
  type : Option String
  s3Bucket : Option String
  s3Key : Option String
  localPath : Option String
deriving DecidableEq, Repr

/-- The `destination` section: `type`, `s3_bucket`, `s3_key_prefix`
(named `s3KeyPfx` here), `local_path`. -/
structure DestSpec where
  type : Option String
  s3Bucket : Option String
  s3KeyPfx : Option String
  localPath : Option String
deriving DecidableEq, Repr

/-- The `options` section: `max_retries` and `overwrite`, both optional
(the runner applies defaults 3 and `False`). -/
structure OptionsSpec where
  maxRetries : Option Nat
  overwrite : Option Bool
deriving DecidableEq, Repr

/-- The parsed pipeline configuration (the transform section's only
consulted key, the CSV delimiter, does not affect the control model). -/
structure PipelineConfig where
  name : String
  source : SourceSpec
  destination : DestSpec
  options : OptionsSpec
deriving DecidableEq, Repr

/-- `self.max_retries = int(self.options.get("max_retries", 3))` in
`BatchIngestionRunner.__init__` (the value is stored by the runner). -/
def PipelineConfig.maxRetriesOpt (c : PipelineConfig) : Nat :=
  c.options.maxRetries.getD 3

/-- `self.overwrite = bool(self.options.get("overwrite", False))`. -/
def PipelineConfig.overwriteOpt (c : PipelineConfig) : Bool :=
  c.options.overwrite.getD false

/-- `_adapter_for`: a spec selects the object-storage adapter exactly
when `spec.get("type", "local") == "s3"`; every other type falls back to
the local adapter. -/
def adapterIsS3 (t : Option String) : Bool :=
  t.getD "local" == "s3"

/-! ## Destination derivation (`_derive_destination_key`) -/

/-- Translation of `BatchIngestionRunner._derive_destination_key`:
take the source's base filename, replace its extension by `.parquet`,
and place it under the destination's configured prefix/path
(`s3_key_prefix or local_path or ""`); for an `s3` destination a
non-empty prefix gets a trailing `/` before concatenation into
`s3://<bucket>/<prefix><name>`, otherwise the result is
`os.path.join(prefix or ".", name)`.  This is a pure function of the
destination spec and the source path, so the derivation is
deterministic by construction. -/
def deriveDestinationKey (dest : DestSpec) (sourcePath : String) : String :=
  let srcName := basename sourcePath
  let pfx := pyOrStr dest.s3KeyPfx (pyOrStr dest.localPath "")
  let destName := String.mk (splitextBaseL srcName.data).1 ++ ".parquet"
  if dest.type == some "s3" then
    let pfx2 := if pfx != "" && !(lastIsSlash pfx) then pfx ++ "/" else pfx
    "s3://" ++ pyShow dest.s3Bucket ++ "/" ++ pfx2 ++ destName
  else
    joinPath (if pfx == "" then "." else pfx) destName

/-- Destination derivation as worded by the spec (for the refinement
claim C4): the derived path equals the source's base filename with its
extension replaced by `.parquet`, placed under the destination's
configured prefix/path, where for an object-storage destination a
non-empty prefix is first normalized to end with `/` and the result is
`s3://<bucket>/<prefix><name>.parquet`. -/
def specDeriveDestination (dest : DestSpec) (sourcePath : String) : String :=
  let stem := String.mk (splitextBaseL (basenameL sourcePath.data)).1
  let derivedName := stem ++ ".parquet"
  let cfgPfx := pyOrStr dest.s3KeyPfx (pyOrStr dest.localPath "")
  if dest.type == some "s3" then
    let normalized := if cfgPfx != "" && !(lastIsSlash cfgPfx) then cfgPfx ++ "/" else cfgPfx
    "s3://" ++ pyShow dest.s3Bucket ++ "/" ++ normalized ++ derivedName
  else
    joinPath (if cfgPfx == "" then "." else cfgPfx) derivedName

/-! ## Retry wrapper (`retry`) -/

/-- One run of the loop body of `retry(fn, max_retries, delay, backoff)`
starting at attempt index `j` with `fuel` retries left.  `op k` is the
outcome of the `k`-th call of the wrapped operation (0-based).  Returns
the final outcome, the number of calls made, and the list of backoff
sleep durations, in order; a failure at attempt `j` sleeps
`delay * backoff ^ j` (the source's `delay * (backoff ** (tries - 1))`
with `tries = j + 1`) unless the retry budget is exhausted
(`tries > max_retries`), in which case the last error is re-raised. -/
def retryFrom {E A : Type} (op : Nat → Except E A) (delay backoff : ℚ) :
    Nat → Nat → Except E A × Nat × List ℚ
  | j, 0 =>
    match op j with
    | .ok a => (.ok a, 1, [])
    | .error err => (.error err, 1, [])
  | j, fuel + 1 =>
    match op j with
    | .ok a => (.ok a, 1, [])
    | .error _ =>
      let r := retryFrom op delay backoff (j + 1) fuel
      (r.1, r.2.1 + 1, (delay * backoff ^ j) :: r.2.2)

/-- The retry wrapper: attempts start at index 0 with a budget of
`maxRetries` retries (so at most `maxRetries + 1` calls). -/
def retryRun {E A : Type} (op : Nat → Except E A) (maxRetries : Nat)
    (delay backoff : ℚ) : Except E A × Nat × List ℚ :=
  retryFrom op delay backoff 0 maxRetries

/-! ## The `run_once` state machine

`BatchIngestionRunner.run_once` is modelled as a function of the parsed
configuration and an environment of oracle outcomes for the external
effects: whether the destination-existence probe answers true, whether
the `k`-th low-level download/upload attempt succeeds, and which
transform tier is available/succeeds.  Staging temporary files are
identified by the order of their creation (`mkstemp` id 0 is the staged
source; ids 1 and 2 are the transform outputs; in the
pandas-unavailable tier the `tmp_src + ".gz"` output is id 1).  The
model records, besides the returned value or raised error, which temp
files were created and which remain on disk afterwards, and how many
adapter and client-level calls were made.
-/

/-- Oracle outcomes for the external effects of one `run_once` call. -/
structure Env where
  destExists : Bool
  downloadAttempt : Nat → Bool
  uploadAttempt : Nat → Bool
  pdAvailable : Bool
  parquetAvailable : Bool
  readCsvOk : Bool
  parquetWriteOk : Bool

/-- Observable side effects of one `run_once` call. -/
structure Effects where
  tempsCreated : List Nat
  tempsLive : List Nat
  destExistsCalls : Nat
  srcAdapterCalls : Nat
  destUploadCalls : Nat
  downloadAttempts : Nat
  uploadAttempts : Nat
  downloadSleeps : List ℚ
deriving DecidableEq, Repr

/-- The all-zero effects record (nothing happened). -/
def Effects.empty : Effects :=
  ⟨[], [], 0, 0, 0, 0, 0, []⟩

/-- Errors `run_once` can raise.  `configError` models the `ValueError`
raised for a missing required source field (the spec's
`ConfigurationError` taxonomy entry); the other constructors tag which
step's exception propagated. -/
inductive RunError where
  | configError (msg : String)
  | downloadError
  | transformError
  | uploadError
deriving DecidableEq, Repr

/-- The returned dictionary of `run_once`. -/
structure RunResult where
  status : String
  dest : String
deriving DecidableEq, Repr

/-- Step 1 of `run_once`: resolve the source path.  An `s3` source
requires truthy `s3_bucket` and `s3_key` and yields
`s3://<bucket>/<key>`; any other source type requires a truthy
`local_path`. -/
def resolveSourcePath (src : SourceSpec) : Except RunError String :=
  if src.type.getD "local" == "s3" then
    if pyTruthy src.s3Bucket && pyTruthy src.s3Key then
      .ok ("s3://" ++ pyShow src.s3Bucket ++ "/" ++ pyShow src.s3Key)
    else
      .error (.configError "s3 source requires s3_bucket and s3_key")
  else
    if pyTruthy src.localPath then
      .ok (pyShow src.localPath)
    else
      .error (.configError "local source requires local_path")

/-- The source adapter's `download` call: for an `s3` source the client
call is wrapped in `retry` with the decorator's defaults
(`max_retries=3, delay=1.0, backoff=2.0` — note the runner's parsed
`options` value is not passed in); for a local source it is a single
copy attempt.  Returns outcome, number of client attempts, sleeps. -/
def downloadOp (c : PipelineConfig) (env : Env) :
    Except Unit Unit × Nat × List ℚ :=
  if adapterIsS3 c.source.type then
    retryRun (fun k => if env.downloadAttempt k then .ok () else .error ()) 3 1 2
  else
    (if env.downloadAttempt 0 then .ok () else .error (), 1, [])

/-- The destination adapter's `upload` call, analogous to
`downloadOp`. -/
def uploadOp (c : PipelineConfig) (env : Env) :
    Except Unit Unit × Nat × List ℚ :=
  if adapterIsS3 c.destination.type then
    retryRun (fun k => if env.uploadAttempt k then .ok () else .error ()) 3 1 2
  else
    (if env.uploadAttempt 0 then .ok () else .error (), 1, [])

/-- The `_transform` step, control view: returns the output temp-file id
and the list of temp files created during the step (the staged source is
id 0).  Tiers, in source order: without pandas, a gzip passthrough file
(id 1); with pandas, a CSV read that can fail fatally, then either a
columnar temp (id 1) — abandoned in favour of a fresh gzip-CSV temp
(id 2) when the columnar write fails — or directly a gzip-CSV temp
(id 1) when no columnar backend is available. -/
def transformPhase (env : Env) : Except RunError Nat × List Nat :=
  if !env.pdAvailable then
    (.ok 1, [1])
  else if !env.readCsvOk then
    (.error .transformError, [])
  else if env.parquetAvailable then
    if env.parquetWriteOk then
      (.ok 1, [1])
    else
      (.ok 2, [1, 2])
  else
    (.ok 1, [1])

/-- Translation of `BatchIngestionRunner.run_once`: resolve the source
path (raising a configuration error before any adapter call), derive
the destination, probe destination existence and short-circuit to
`skipped` unless `overwrite`, stage the source to temp 0, transform,
upload, and remove temp 0 and the transform output in the `finally`
block attached to the upload — note that this `finally` is reached only
when download and transform both succeeded, exactly as in the source. -/
def runOnce (c : PipelineConfig) (env : Env) :
    Except RunError RunResult × Effects :=
  match resolveSourcePath c.source with
  | .error e => (.error e, Effects.empty)
  | .ok sourcePath =>
    let destPath := deriveDestinationKey c.destination sourcePath
    if env.destExists && !c.overwriteOpt then
      (.ok ⟨"skipped", destPath⟩, { Effects.empty with destExistsCalls := 1 })
    else
      let dl := downloadOp c env
      match dl.1 with
      | .error _ =>
        (.error .downloadError,
         { tempsCreated := [0], tempsLive := [0], destExistsCalls := 1,
           srcAdapterCalls := 1, destUploadCalls := 0,
           downloadAttempts := dl.2.1, uploadAttempts := 0,
           downloadSleeps := dl.2.2 })
      | .ok _ =>
        match transformPhase env with
        | (.error e, created) =>
          (.error e,
           { tempsCreated := 0 :: created, tempsLive := 0 :: created,
             destExistsCalls := 1, srcAdapterCalls := 1, destUploadCalls := 0,
             downloadAttempts := dl.2.1, uploadAttempts := 0,
             downloadSleeps := dl.2.2 })
        | (.ok outId, created) =>
          let ul := uploadOp c env
          let allCreated := 0 :: created
          let live := allCreated.filter (fun p => p != 0 && p != outId)
          let eff : Effects :=
            { tempsCreated := allCreated, tempsLive := live,
              destExistsCalls := 1, srcAdapterCalls := 1, destUploadCalls := 1,
              downloadAttempts := dl.2.1, uploadAttempts := ul.2.1,
              downloadSleeps := dl.2.2 }
          match ul.1 with
          | .error _ => (.error .uploadError, eff)
          | .ok _ => (.ok ⟨"success", destPath⟩, eff)

/-! ## Object-storage existence probe (`S3StorageAdapter.exists`) -/

/-- Outcome of one `head_object` metadata probe, as observed by the
adapter: success, a `ClientError` carrying the backend's error code
under `response["Error"]["Code"]` (absent fields read as `None`), or any
other exception, which the `except ClientError` clause does not catch. -/
inductive HeadOutcome where
  | ok
  | clientError (code : Option String)
  | otherError
deriving DecidableEq, Repr

/-- Errors propagated out of `exists`. -/
inductive ExistsErr where
  | clientError (code : Option String)
  | otherError
deriving DecidableEq, Repr

/-- Membership of the backend error code in the not-found set
`("404", "NoSuchKey", "NotFound")`. -/
def notFoundCode (c : Option String) : Bool :=
  c == some "404" || c == some "NoSuchKey" || c == some "NotFound"

/-- The probe against a parsed (bucket, key) pair: true on success,
false when a `ClientError`'s code is in the not-found set, re-raise
otherwise. -/
def s3ExistsBK (head : String → String → HeadOutcome) (bucket key : String) :
    Except ExistsErr Bool :=
  match head bucket key with
  | .ok => .ok true
  | .clientError c =>
    if notFoundCode c then .ok false else .error (.clientError c)
  | .otherError => .error .otherError

/-- Translation of `S3StorageAdapter.exists`: parse the path and issue a
single metadata-only `head_object` probe on the resulting
(bucket, key). -/
def s3Exists (head : String → String → HeadOutcome) (path : String) :
    Except ExistsErr Bool :=
  s3ExistsBK head (parseS3Path path).1 (parseS3Path path).2

/-! ## Content model of `_transform` (CSV, gzip, columnar)

File contents are character lists.  The CSV reader/writer below models
the line/field structure that `pd.read_csv` / `DataFrame.to_csv` give a
simple CSV (no quoting; blank lines skipped, matching pandas'
`skip_blank_lines` default and making a trailing newline harmless); the
gzip library and the columnar serializer are external collaborators and
are modelled by their contracts as invertible containers. -/

/-- A parsed table: a header row of column names plus data rows, each a
list of fields. -/
structure Table where
  header : List (List Char)
  rows : List (List (List Char))
deriving DecidableEq, Repr

/-- Serialize one row: fields joined by commas. -/
def lineOf (fs : List (List Char)) : List Char :=
  [','].intercalate fs

/-- `DataFrame.to_csv(index=False)`: every line (header first) followed
by a newline. -/
def toCSVData (t : Table) : List Char :=
  ((t.header :: t.rows).map (fun fs => lineOf fs ++ ['\n'])).flatten

/-- `pd.read_csv(..., sep=delim)` on simple content: split into
non-blank lines, the first is the header, the rest are data rows; empty
input is a parse error. -/
def parseCSVData (delim : Char) (s : List Char) : Option Table :=
  match (s.splitOn '\n').filter (fun l => !l.isEmpty) with
  | [] => none
  | h :: rs => some ⟨h.splitOn delim, rs.map (fun r => r.splitOn delim)⟩

/-- An output file's content: raw bytes, a gzip container (modelled by
the gzip contract: decompression returns exactly the compressed bytes),
or a columnar container (modelled by the columnar round-trip contract:
reading back returns the serialized table). -/
inductive Blob where
  | raw (d : List Char)
  | gz (d : List Char)
  | pq (t : Table)
deriving DecidableEq, Repr

/-- Decompress a gzip output. -/
def gunzipData : Blob → Option (List Char)
  | .gz d => some d
  | _ => none

/-- Read back a columnar output. -/
def readColumnar : Blob → Option Table
  | .pq t => some t
  | _ => none

/-- Content view of `_transform` on a source file `src`: without pandas,
a byte-level gzip passthrough of the source; with pandas, parse the CSV
(fatal on failure), then serialize the parsed table in columnar form
when a columnar backend is available and its write succeeds, otherwise
gzip the table re-serialized as CSV (with pandas' default comma). -/
def transformContent (pdAvail parquetAvail parquetWriteOk : Bool)
    (delim : Char) (src : List Char) : Option Blob :=
  if !pdAvail then
    some (.gz src)
  else
    match parseCSVData delim src with
    | none => none
    | some t =>
      if parquetAvail && parquetWriteOk then some (.pq t)
      else some (.gz (toCSVData t))

/-- Well-formed field: non-empty, no comma, no newline (the simple-CSV
domain on which the pandas writer/reader pair is the identity). -/
def wfField (f : List Char) : Prop :=
  f ≠ [] ∧ ',' ∉ f ∧ '\n' ∉ f

/-- Well-formed table: non-empty header of well-formed fields, and every
row non-empty with well-formed fields. -/
def wfTable (t : Table) : Prop :=
  t.header ≠ [] ∧ (∀ f ∈ t.header, wfField f) ∧
    ∀ r ∈ t.rows, r ≠ [] ∧ ∀ f ∈ r, wfField f

instance (f : List Char) : Decidable (wfField f) := by
  unfold wfField; infer_instance

instance (t : Table) : Decidable (wfTable t) := by
  unfold wfTable wfField; infer_instance

/-! ## Helper lemmas -/

theorem takeWhile_bne_append {α : Type} [DecidableEq α] (c : α)
    (l1 l2 : List α) (h : c ∉ l1) :
    (l1 ++ c :: l2).takeWhile (fun x => x != c) = l1 := by
  induction l1 with
  | nil => simp
  | cons a t ih =>
    have ha : (a != c) = true := by
      simp only [bne_iff_ne, ne_eq]
      exact fun hc => h (hc ▸ List.mem_cons_self a t)
    simp [List.takeWhile_cons, ha, ih (fun hm => h (List.mem_cons_of_mem a hm))]

theorem dropWhile_bne_append {α : Type} [DecidableEq α] (c : α)
    (l1 l2 : List α) (h : c ∉ l1) :
    (l1 ++ c :: l2).dropWhile (fun x => x != c) = c :: l2 := by
  induction l1 with
  | nil => simp
  | cons a t ih =>
    have ha : (a != c) = true := by
      simp only [bne_iff_ne, ne_eq]
      exact fun hc => h (hc ▸ List.mem_cons_self a t)
    simp [List.dropWhile_cons, ha, ih (fun hm => h (List.mem_cons_of_mem a hm))]

theorem takeWhile_bne_all {α : Type} [DecidableEq α] (c : α)
    (l : List α) (h : c ∉ l) :
    l.takeWhile (fun x => x != c) = l := by
  induction l with
  | nil => rfl
  | cons a t ih =>
    have ha : (a != c) = true := by
      simp only [bne_iff_ne, ne_eq]
      exact fun hc => h (hc ▸ List.mem_cons_self a t)
    simp [List.takeWhile_cons, ha, ih (fun hm => h (List.mem_cons_of_mem a hm))]

theorem dropWhile_bne_all {α : Type} [DecidableEq α] (c : α)
    (l : List α) (h : c ∉ l) :
    l.dropWhile (fun x => x != c) = [] := by
  induction l with
  | nil => rfl
  | cons a t ih =>
    have ha : (a != c) = true := by
      simp only [bne_iff_ne, ne_eq]
      exact fun hc => h (hc ▸ List.mem_cons_self a t)
    simp [List.dropWhile_cons, ha, ih (fun hm => h (List.mem_cons_of_mem a hm))]

theorem string_mk_data (s : String) : String.mk s.data = s := rfl

theorem stripScheme_append (l : List Char) :
    stripScheme ("s3://".data ++ l) = l := by
  have h5 : ("s3://".data).length = 5 := rfl
  unfold stripScheme
  rw [← h5, List.take_left, List.drop_left, if_pos rfl]

theorem stripScheme_of_no_scheme (l : List Char)
    (h : l.take 5 ≠ "s3://".data) : stripScheme l = l := by
  unfold stripScheme
  rw [if_neg h]

/-! ## Claim theorems -/

/-- C4: destination derivation is deterministic (it is a pure function
of the destination spec and the source path) and matches the stated
form: the source's base filename with its extension replaced by
`.parquet`, placed under the destination's configured prefix/path, where
for an object-storage destination a non-empty prefix is normalized to
end with `/` before concatenation into `s3://bucket/prefix-name`. -/
theorem claim_C4_derive_matches_spec :
    ∀ (dest : DestSpec) (sourcePath : String),
      deriveDestinationKey dest sourcePath = specDeriveDestination dest sourcePath := by
  intro dest sourcePath
  rfl

/-- C10: object-storage path parsing strips one leading `s3://` scheme
if present and splits the remainder at the first `/` only, so the key
keeps any later slashes; a remainder with no slash parses to the whole
remainder as bucket with an empty key (a bare bucket name is accepted,
not rejected), and `exists` (likewise `download`/`upload`) then targets
exactly the parsed (bucket, key) pair, i.e. the empty key for a bare
bucket. -/
theorem claim_C10_parse_s3_path (b k r : String) :
    ('/' ∉ b.data → parseS3Path ("s3://" ++ b ++ "/" ++ k) = (b, k)) ∧
    ('/' ∉ b.data → (b ++ "/" ++ k).data.take 5 ≠ "s3://".data →
      parseS3Path (b ++ "/" ++ k) = (b, k)) ∧
    ('/' ∉ r.data → r.data.take 5 ≠ "s3://".data → parseS3Path r = (r, "")) ∧
    ('/' ∉ r.data → parseS3Path ("s3://" ++ r) = (r, "")) ∧
    (∀ head, s3Exists head r =
      s3ExistsBK head (parseS3Path r).1 (parseS3Path r).2) := by
  refine ⟨?_, ?_, ?_, ?_, fun head => rfl⟩
  · intro hb
    have hdata : ("s3://" ++ b ++ "/" ++ k).data =
        "s3://".data ++ (b.data ++ '/' :: k.data) := by
      simp [String.data_append]
    unfold parseS3Path
    rw [hdata, stripScheme_append,
      takeWhile_bne_append '/' b.data k.data hb,
      dropWhile_bne_append '/' b.data k.data hb]
  · intro hb hns
    have hdata : (b ++ "/" ++ k).data = b.data ++ '/' :: k.data := by
      simp [String.data_append]
    unfold parseS3Path
    rw [hdata] at hns ⊢
    rw [stripScheme_of_no_scheme _ hns,
      takeWhile_bne_append '/' b.data k.data hb,
      dropWhile_bne_append '/' b.data k.data hb]
  · intro hr hns
    unfold parseS3Path
    rw [stripScheme_of_no_scheme _ hns,
      takeWhile_bne_all '/' r.data hr, dropWhile_bne_all '/' r.data hr]
  · intro hr
    have hdata : ("s3://" ++ r).data = "s3://".data ++ r.data := by
      simp [String.data_append]
    unfold parseS3Path
    rw [hdata, stripScheme_append,
      takeWhile_bne_all '/' r.data hr, dropWhile_bne_all '/' r.data hr]

/-- C10 witness: the parser at concrete inputs, obtained from the claim
theorem. -/
theorem claim_C10_parse_s3_path_witness :
    parseS3Path "s3://bucket/a/b/c" = ("bucket", "a/b/c") ∧
    parseS3Path "bucket/a/b/c" = ("bucket", "a/b/c") ∧
    parseS3Path "bucket" = ("bucket", "") ∧
    parseS3Path "s3://bucket" = ("bucket", "") := by
  have h := claim_C10_parse_s3_path "bucket" "a/b/c" "bucket"
  have e1 : ("s3://" ++ "bucket" ++ "/" ++ "a/b/c" : String) = "s3://bucket/a/b/c" := by decide
  have e2 : ("bucket" ++ "/" ++ "a/b/c" : String) = "bucket/a/b/c" := by decide
  have e3 : ("s3://" ++ "bucket" : String) = "s3://bucket" := by decide
  have hns2 : (("bucket" ++ "/" ++ "a/b/c" : String)).data.take 5 ≠ "s3://".data := by decide
  have hns3 : (("bucket" : String)).data.take 5 ≠ "s3://".data := by decide
  exact ⟨e1 ▸ h.1 (by decide), e2 ▸ h.2.1 (by decide) hns2,
    h.2.2.1 (by decide) hns3, e3 ▸ h.2.2.2.1 (by decide)⟩

/-- C9: the object-storage `exists` probe issues one metadata-only
`head_object` call on the parsed (bucket, key); it returns true when the
probe succeeds, false exactly when the backend reports a `ClientError`
whose code is `404`, `NoSuchKey` or `NotFound`, and re-raises every
other backend error (a `ClientError` with any other or missing code, or
an exception the `except ClientError` clause does not catch). -/
theorem claim_C9_exists_not_found (head : String → String → HeadOutcome)
    (path : String) :
    (head (parseS3Path path).1 (parseS3Path path).2 = .ok →
      s3Exists head path = .ok true) ∧
    (∀ c, head (parseS3Path path).1 (parseS3Path path).2 = .clientError c →
      ((c = some "404" ∨ c = some "NoSuchKey" ∨ c = some "NotFound") →
        s3Exists head path = .ok false) ∧
      (c ≠ some "404" → c ≠ some "NoSuchKey" → c ≠ some "NotFound" →
        s3Exists head path = .error (.clientError c))) ∧
    (head (parseS3Path path).1 (parseS3Path path).2 = .otherError →
      s3Exists head path = .error .otherError) := by
  unfold s3Exists s3ExistsBK
  refine ⟨fun h => by rw [h], fun c hc => ?_, fun h => by rw [h]⟩
  rw [hc]
  constructor
  · intro hin
    have : notFoundCode c = true := by
      rcases hin with h | h | h <;> simp [notFoundCode, h]
    simp [this]
  · intro h1 h2 h3
    have : notFoundCode c = false := by
      simp only [notFoundCode, Bool.or_eq_false_iff, beq_eq_false_iff_ne, ne_eq]
      exact ⟨⟨h1, h2⟩, h3⟩
    simp [this]

/-- C9 witness: the three probe outcomes at a concrete path, obtained
from the claim theorem. -/
theorem claim_C9_exists_not_found_witness :
    s3Exists (fun _ _ => .ok) "b/k" = .ok true ∧
    s3Exists (fun _ _ => .clientError (some "NoSuchKey")) "b/k" = .ok false ∧
    s3Exists (fun _ _ => .clientError (some "500")) "b/k" =
      .error (.clientError (some "500")) ∧
    s3Exists (fun _ _ => .otherError) "b/k" = .error .otherError := by
  refine ⟨(claim_C9_exists_not_found (fun _ _ => .ok) "b/k").1 rfl,
    ((claim_C9_exists_not_found (fun _ _ => .clientError (some "NoSuchKey"))
        "b/k").2.1 (some "NoSuchKey") rfl).1 (by decide),
    ((claim_C9_exists_not_found (fun _ _ => .clientError (some "500"))
        "b/k").2.1 (some "500") rfl).2 (by decide) (by decide) (by decide),
    (claim_C9_exists_not_found (fun _ _ => .otherError) "b/k").2.2 rfl⟩

/-! ## Retry lemmas -/

theorem retryFrom_ok {E A : Type} (op : Nat → Except E A) (delay backoff : ℚ)
    (e : Nat → E) (a : A) :
    ∀ (f j : Nat), (∀ k, j ≤ k → k < j + f → op k = .error (e k)) →
      op (j + f) = .ok a →
      retryFrom op delay backoff j f =
        (.ok a, f + 1, (List.range' j f).map fun i => delay * backoff ^ i) := by
  intro f
  induction f with
  | zero =>
    intro j _ hok
    rw [Nat.add_zero] at hok
    simp [retryFrom, hok]
  | succ f ih =>
    intro j hfail hok
    have hj : op j = .error (e j) :=
      hfail j (Nat.le_refl j) (by omega)
    have hrec := ih (j + 1)
      (fun k hk1 hk2 => hfail k (by omega) (by omega))
      (by rw [show j + 1 + f = j + (f + 1) by omega]; exact hok)
    simp only [retryFrom, hj, hrec, List.range'_succ, List.map_cons]

theorem retryFrom_fail {E A : Type} (op : Nat → Except E A) (delay backoff : ℚ)
    (e : Nat → E) :
    ∀ (f j : Nat), (∀ k, j ≤ k → k ≤ j + f → op k = .error (e k)) →
      retryFrom op delay backoff j f =
        (.error (e (j + f)), f + 1,
          (List.range' j f).map fun i => delay * backoff ^ i) := by
  intro f
  induction f with
  | zero =>
    intro j hfail
    have hj : op j = .error (e j) := hfail j (Nat.le_refl j) (by omega)
    rw [Nat.add_zero]
    simp [retryFrom, hj]
  | succ f ih =>
    intro j hfail
    have hj : op j = .error (e j) := hfail j (Nat.le_refl j) (by omega)
    have hrec := ih (j + 1) (fun k hk1 hk2 => hfail k (by omega) (by omega))
    rw [show j + 1 + f = j + (f + 1) by omega] at hrec
    simp only [retryFrom, hj, hrec, List.range'_succ, List.map_cons]

/-- C2: the retry wrapper attempts the operation, sleeps
`delay * backoff ^ (attempt - 1)` after each failure while the failure
count is at most `max_retries`, and re-raises the last error once the
failure count exceeds `max_retries`.  Consequently an operation failing
exactly `m = max_retries` times and then succeeding yields success after
`m + 1` calls with exactly the `m` sleeps `delay * backoff ^ i` for
`i = 0, ..., m - 1` in order, and an operation failing `m + 1` times
propagates the final error after the same `m` sleeps. -/
theorem claim_C2_retry_budget {E A : Type} (op : Nat → Except E A) (m : Nat)
    (delay backoff : ℚ) (e : Nat → E) (a : A) :
    ((∀ k, k < m → op k = .error (e k)) → op m = .ok a →
      retryRun op m delay backoff =
        (.ok a, m + 1, (List.range m).map fun i => delay * backoff ^ i)) ∧
    ((∀ k, k ≤ m → op k = .error (e k)) →
      retryRun op m delay backoff =
        (.error (e m), m + 1, (List.range m).map fun i => delay * backoff ^ i)) := by
  constructor
  · intro hfail hok
    have := retryFrom_ok op delay backoff e a m 0
      (fun k hk1 hk2 => hfail k (by omega)) (by simpa using hok)
    rw [retryRun, this, List.range_eq_range']
  · intro hfail
    have := retryFrom_fail op delay backoff e m 0
      (fun k hk1 hk2 => hfail k (by omega))
    rw [retryRun, this, List.range_eq_range']
    simp

/-- Operation for the C2 witness: fails on attempts 0 and 1, succeeds on
attempt 2. -/
def retryWitnessOpA : Nat → Except Nat Nat :=
  fun k => if k < 2 then .error k else .ok 7

/-- Operation for the C2 witness: fails on every attempt. -/
def retryWitnessOpB : Nat → Except Nat Nat :=
  fun k => .error k

/-- C2 witness: with `max_retries = 2`, two transient failures then a
success give overall success after sleeps `1, 2`; three failures
propagate the final error.  Obtained from the claim theorem at concrete
inputs. -/
theorem claim_C2_retry_budget_witness :
    retryRun retryWitnessOpA 2 1 2 =
      (.ok 7, 3, (List.range 2).map fun i => (1 : ℚ) * 2 ^ i) ∧
    retryRun retryWitnessOpB 2 1 2 =
      (.error 2, 3, (List.range 2).map fun i => (1 : ℚ) * 2 ^ i) :=
  ⟨(claim_C2_retry_budget retryWitnessOpA 2 1 2 (fun k => k) 7).1
      (by intro k hk; interval_cases k <;> rfl) rfl,
   (claim_C2_retry_budget retryWitnessOpB 2 1 2 (fun k => k) 7).2
      (fun k _ => rfl)⟩

/-! ## Concrete configurations and environments used by witnesses and
counterexamples (the spec's concrete scenario: local CSV source
`data/input.csv`, local destination directory `out`) -/

deriving instance DecidableEq for Except

/-- Local-to-local job from the spec's concrete scenario. -/
def localCfg : PipelineConfig :=
  ⟨"test-batch-local", ⟨some "local", none, none, some "data/input.csv"⟩,
   ⟨some "local", none, none, some "out"⟩, ⟨none, none⟩⟩

/-- Everything succeeds, destination absent, all libraries present. -/
def envAllOk : Env :=
  ⟨false, fun _ => true, fun _ => true, true, true, true, true⟩

/-- As `envAllOk` but the destination already exists. -/
def envDestExists : Env :=
  { envAllOk with destExists := true }

/-- As `envAllOk` but every download attempt fails. -/
def envDownloadFails : Env :=
  { envAllOk with downloadAttempt := fun _ => false }

/-- As `envAllOk` but the CSV read fails. -/
def envReadFails : Env :=
  { envAllOk with readCsvOk := false }

/-- As `envAllOk` but the columnar write fails, forcing the gzip-CSV
fallback inside `_transform`. -/
def envParquetFallback : Env :=
  { envAllOk with parquetWriteOk := false }

/-- As `envAllOk` but no columnar backend is available. -/
def envNoColumnar : Env :=
  { envAllOk with parquetAvailable := false }

/-- An `s3`-source job whose options set `max_retries = 1`. -/
def s3RetryCfg : PipelineConfig :=
  ⟨"s3-retry", ⟨some "s3", some "b", some "data.csv", none⟩,
   ⟨some "local", none, none, some "out"⟩, ⟨some 1, none⟩⟩

/-- Download attempts 0 and 1 fail transiently, attempt 2 succeeds
(pandas absent so the transform is the raw gzip passthrough). -/
def envTwoFailures : Env :=
  ⟨false, fun k => decide (2 ≤ k), fun _ => true, false, false, true, true⟩

/-- An `s3` source missing its `s3_key`. -/
def s3MissingKeyCfg : PipelineConfig :=
  ⟨"bad-s3", ⟨some "s3", some "b", none, none⟩,
   ⟨some "local", none, none, some "out"⟩, ⟨none, none⟩⟩

/-- A local source missing its `local_path`. -/
def noPathCfg : PipelineConfig :=
  ⟨"bad-local", ⟨none, none, none, none⟩,
   ⟨some "local", none, none, some "out"⟩, ⟨none, none⟩⟩

/-- C3: when the derived destination already exists and the overwrite
option is false, `run_once` returns the skipped result carrying the
derived destination, with no staging temp created, zero source-adapter
calls (so no download attempt), no transform and no upload — only the
single destination-existence probe happens. -/
theorem claim_C3_idempotent_skip (c : PipelineConfig) (env : Env) (sp : String)
    (hres : resolveSourcePath c.source = .ok sp)
    (hex : env.destExists = true)
    (hov : c.overwriteOpt = false) :
    runOnce c env =
      (.ok ⟨"skipped", deriveDestinationKey c.destination sp⟩,
       ⟨[], [], 1, 0, 0, 0, 0, []⟩) := by
  unfold runOnce
  rw [hres]
  simp [hex, hov, Effects.empty]

/-- C3 witness: the spec's second concrete scenario, obtained from the
claim theorem. -/
theorem claim_C3_idempotent_skip_witness :
    runOnce localCfg envDestExists =
      (.ok ⟨"skipped", "out/input.parquet"⟩, ⟨[], [], 1, 0, 0, 0, 0, []⟩) := by
  have h := claim_C3_idempotent_skip localCfg envDestExists "data/input.csv"
    rfl rfl rfl
  have e : deriveDestinationKey localCfg.destination "data/input.csv" =
      "out/input.parquet" := by decide
  rw [h, e]

/-- C8: a configuration error (the spec taxonomy's `ConfigurationError`,
a `ValueError` in the source) is raised during source-path resolution,
before the destination-existence probe, any download or upload attempt,
and any temp-file creation: an `s3` source missing a truthy bucket or
key, or a non-`s3` source missing a truthy path, makes `run_once` fail
with the corresponding message and the all-zero effects record. -/
theorem claim_C8_config_error_eager (c : PipelineConfig) (env : Env) :
    (c.source.type.getD "local" = "s3" →
      pyTruthy c.source.s3Bucket = false ∨ pyTruthy c.source.s3Key = false →
      runOnce c env =
        (.error (.configError "s3 source requires s3_bucket and s3_key"),
         Effects.empty)) ∧
    (c.source.type.getD "local" ≠ "s3" →
      pyTruthy c.source.localPath = false →
      runOnce c env =
        (.error (.configError "local source requires local_path"),
         Effects.empty)) := by
  constructor
  · intro ht hbk
    have hres : resolveSourcePath c.source =
        .error (.configError "s3 source requires s3_bucket and s3_key") := by
      unfold resolveSourcePath
      rcases hbk with h | h <;> simp [ht, h]
    unfold runOnce
    rw [hres]
  · intro ht hp
    have hres : resolveSourcePath c.source =
        .error (.configError "local source requires local_path") := by
      unfold resolveSourcePath
      have : (c.source.type.getD "local" == "s3") = false := by
        simp [ht]
      simp [this, hp]
    unfold runOnce
    rw [hres]

/-- C8 witness: both missing-field shapes at concrete configurations,
obtained from the claim theorem. -/
theorem claim_C8_config_error_eager_witness :
    runOnce s3MissingKeyCfg envAllOk =
      (.error (.configError "s3 source requires s3_bucket and s3_key"),
       Effects.empty) ∧
    runOnce noPathCfg envAllOk =
      (.error (.configError "local source requires local_path"),
       Effects.empty) :=
  ⟨(claim_C8_config_error_eager s3MissingKeyCfg envAllOk).1 rfl
      (Or.inr rfl),
   (claim_C8_config_error_eager noPathCfg envAllOk).2 (by decide) rfl⟩

/-- C5: the code contradicts the documented contract that
`options.max_retries` governs object-storage retries.  The runner parses
`options.max_retries` into `self.max_retries` but never passes it to the
`retry` decorator, which keeps its fixed default budget of 3.  With
`max_retries = 1` and two transient download failures, the claim
requires the run to fail after one retry, yet the run succeeds and the
client was attempted 3 times — more than the configured budget plus one
allows. -/
theorem claim_C5_max_retries_unused :
    s3RetryCfg.maxRetriesOpt = 1 ∧
    (runOnce s3RetryCfg envTwoFailures).1 =
      .ok ⟨"success", "out/data.parquet"⟩ ∧
    (runOnce s3RetryCfg envTwoFailures).2.downloadAttempts = 3 ∧
    s3RetryCfg.maxRetriesOpt + 1 <
      (runOnce s3RetryCfg envTwoFailures).2.downloadAttempts := by
  refine ⟨rfl, by decide, by decide, by decide⟩

/-- Source-path resolution can only raise configuration errors. -/
theorem resolve_error_is_config (src : SourceSpec) (e : RunError)
    (h : resolveSourcePath src = .error e) : ∃ msg, e = .configError msg := by
  unfold resolveSourcePath at h
  split at h
  · split at h
    · simp at h
    · injection h with h2
      exact ⟨_, h2.symm⟩
  · split at h
    · simp at h
    · injection h with h2
      exact ⟨_, h2.symm⟩

/-- C1 counterexample: the cleanup block is a `finally` attached only to
the upload step, so a download failure exits `run_once` with the staged
source temp file (id 0) still on disk — a staging temp file created
during the call remains afterwards, contradicting the claim. -/
theorem claim_C1_cleanup_counterexample :
    (runOnce localCfg envDownloadFails).1 = .error .downloadError ∧
    (runOnce localCfg envDownloadFails).2.tempsCreated = [0] ∧
    (runOnce localCfg envDownloadFails).2.tempsLive = [0] := by
  refine ⟨by decide, by decide, by decide⟩

/-- C1 amended: staging-temp cleanup is guaranteed only for runs that
reach the upload step (equivalently, whose effects show the one upload
call): such runs remove the staged source temp and the transform output
on success and on upload failure alike, but still leak the abandoned
columnar temp (id 1) whenever the columnar write failed and the gzip-CSV
fallback was used; a run that fails during download or transform leaves
staging temp files on disk. -/
theorem claim_C1_cleanup_amended (c : PipelineConfig) (env : Env) :
    ((runOnce c env).2.destUploadCalls = 1 →
      (runOnce c env).2.tempsLive =
        if env.pdAvailable && env.parquetAvailable && !env.parquetWriteOk
        then [1] else []) ∧
    ((runOnce c env).1 = .error .downloadError ∨
        (runOnce c env).1 = .error .transformError →
      (runOnce c env).2.tempsLive ≠ []) := by
  cases hres : resolveSourcePath c.source with
  | error e =>
    obtain ⟨msg, rfl⟩ := resolve_error_is_config c.source e hres
    simp [runOnce, hres, Effects.empty]
  | ok sp =>
    simp only [runOnce, hres]
    cases hskip : env.destExists && !c.overwriteOpt with
    | true =>
      simp [Effects.empty]
    | false =>
      simp only [Bool.false_eq_true, if_false]
      cases hdl : (downloadOp c env).1 with
      | error u =>
        constructor
        · intro h
          simp at h
        · intro _
          simp
      | ok u =>
        cases hul : (uploadOp c env).1 <;>
          cases hpd : env.pdAvailable <;>
          cases hrd : env.readCsvOk <;>
          cases hpa : env.parquetAvailable <;>
          cases hwr : env.parquetWriteOk <;>
          simp [transformPhase, hpd, hrd, hpa, hwr]

/-- C1 amended witness: a successful run through the columnar-write
fallback leaks exactly the abandoned columnar temp, and a run whose CSV
read fails leaves staging temps behind; both obtained from the amended
theorem. -/
theorem claim_C1_cleanup_amended_witness :
    (runOnce localCfg envParquetFallback).2.tempsLive = [1] ∧
    (runOnce localCfg envReadFails).2.tempsLive ≠ [] := by
  constructor
  · exact ((claim_C1_cleanup_amended localCfg envParquetFallback).1
      (by decide)).trans (by decide)
  · exact (claim_C1_cleanup_amended localCfg envReadFails).2 (Or.inr (by decide))

/-- Appending on the left preserves a string-data suffix. -/
theorem suffix_data_append (x y : String) (t : List Char)
    (h : t <:+ y.data) : t <:+ (x ++ y).data := by
  rw [String.data_append]
  exact h.trans (List.suffix_append x.data y.data)

/-- The derived destination always ends in `.parquet`, whatever the
destination spec and source path. -/
theorem derive_ends_parquet (dest : DestSpec) (sp : String) :
    ".parquet".data <:+ (deriveDestinationKey dest sp).data := by
  have hname : ∀ stem : List Char,
      ".parquet".data <:+ (String.mk stem ++ ".parquet").data := by
    intro stem
    rw [String.data_append]
    exact List.suffix_append _ _
  have hjoin : ∀ (a y : String), ".parquet".data <:+ y.data →
      ".parquet".data <:+ (joinPath a y).data := by
    intro a y h
    unfold joinPath
    split
    · exact h
    · split
      · exact suffix_data_append a y _ h
      · exact suffix_data_append (a ++ "/") y _ h
  simp only [deriveDestinationKey]
  split
  · exact suffix_data_append _ _ _ (hname _)
  · exact hjoin _ _ (hname _)

/-- Whenever `run_once` returns a value (success or skipped), the
carried destination is the derived destination of the resolved source
path. -/
theorem runOnce_ok_dest (c : PipelineConfig) (env : Env) (r : RunResult)
    (h : (runOnce c env).1 = .ok r) :
    ∃ sp, resolveSourcePath c.source = .ok sp ∧
      r.dest = deriveDestinationKey c.destination sp := by
  cases hres : resolveSourcePath c.source with
  | error e =>
    simp [runOnce, hres] at h
  | ok sp =>
    refine ⟨sp, rfl, ?_⟩
    simp only [runOnce, hres] at h
    cases hskip : env.destExists && !c.overwriteOpt with
    | true =>
      simp only [hskip, if_true] at h
      injection h with h2
      rw [← h2]
    | false =>
      simp only [hskip, Bool.false_eq_true, if_false] at h
      cases hdl : (downloadOp c env).1 with
      | error u =>
        rw [hdl] at h
        simp at h
      | ok u =>
        rw [hdl] at h
        cases htr : transformPhase env with
        | mk tres created =>
          rw [htr] at h
          cases tres with
          | error e2 =>
            simp at h
          | ok outId =>
            cases hul : (uploadOp c env).1 with
            | error v =>
              simp only [hul] at h
              simp at h
            | ok v =>
              simp only [hul] at h
              injection h with h2
              rw [← h2]

/-- C6 counterexample: on the spec's concrete scenario with pandas
available but no columnar backend, `run_once` succeeds with destination
`out/input.parquet`, not `out/input.csv.gz` as the claim requires —
the transform tier never changes the returned destination path. -/
theorem claim_C6_dest_extension_counterexample :
    (runOnce localCfg envNoColumnar).1 =
      .ok ⟨"success", "out/input.parquet"⟩ ∧
    ("out/input.parquet" : String) ≠ "out/input.csv.gz" := by
  refine ⟨by decide, by decide⟩

/-- C6 amended: the destination returned by `run_once` is the derived
destination path, which always ends in `.parquet`; it does not depend on
which transform tier ran (the tier affects only the uploaded bytes and
the temp file's suffix), so any two completed runs of the same
configuration report the same destination. -/
theorem claim_C6_dest_amended (c : PipelineConfig) (env : Env)
    (r : RunResult) (h : (runOnce c env).1 = .ok r) :
    ".parquet".data <:+ r.dest.data ∧
    ∀ (env' : Env) (r' : RunResult),
      (runOnce c env').1 = .ok r' → r'.dest = r.dest := by
  obtain ⟨sp, hres, hdest⟩ := runOnce_ok_dest c env r h
  constructor
  · rw [hdest]
    exact derive_ends_parquet _ _
  · intro env' r' h'
    obtain ⟨sp', hres', hdest'⟩ := runOnce_ok_dest c env' r' h'
    rw [hres] at hres'
    injection hres' with h2
    rw [hdest, hdest', h2]

/-- C6 amended witness: the amended theorem applied to the concrete
scenario — the success destination ends in `.parquet`, and the run
without a columnar backend reports the same destination as the run with
one. -/
theorem claim_C6_dest_amended_witness :
    ".parquet".data <:+ ("out/input.parquet" : String).data ∧
    (⟨"success", "out/input.parquet"⟩ : RunResult).dest =
      (⟨"success", "out/input.parquet"⟩ : RunResult).dest := by
  have h := claim_C6_dest_amended localCfg envAllOk
    ⟨"success", "out/input.parquet"⟩ (by decide)
  exact ⟨h.1, h.2 envNoColumnar ⟨"success", "out/input.parquet"⟩ (by decide)⟩

/-! ## CSV round-trip lemmas -/

/-- Every element of an intercalation is the separator or belongs to one
of the joined lists. -/
theorem mem_intercalate_cases {α : Type} {y x : α} :
    ∀ {ls : List (List α)}, y ∈ [x].intercalate ls →
      y = x ∨ ∃ l ∈ ls, y ∈ l := by
  intro ls
  induction ls with
  | nil => simp [List.intercalate]
  | cons a tl ih =>
    cases tl with
    | nil =>
      intro h
      simp [List.intercalate] at h
      exact Or.inr ⟨a, by simp, h⟩
    | cons b tl2 =>
      intro h
      simp only [List.intercalate, List.intersperse_cons_cons,
        List.flatten_cons] at h
      rcases List.mem_append.mp h with ha2 | h2
      · exact Or.inr ⟨a, by simp, ha2⟩
      rcases List.mem_append.mp h2 with hx | hrest
      · exact Or.inl (List.mem_singleton.mp hx)
      · rcases ih (show y ∈ [x].intercalate (b :: tl2) by
            simpa [List.intercalate] using hrest) with hx | ⟨l, hl, hy⟩
        · exact Or.inl hx
        · exact Or.inr ⟨l, List.mem_cons_of_mem a hl, hy⟩

/-- An intercalation of non-empty lists over a non-empty list of lists
is non-empty. -/
theorem intercalate_ne_nil {α : Type} (x : α) (fs : List (List α))
    (h1 : fs ≠ []) (h2 : ∀ f ∈ fs, f ≠ []) : [x].intercalate fs ≠ [] := by
  cases fs with
  | nil => exact absurd rfl h1
  | cons a tl =>
    cases tl with
    | nil =>
      simpa [List.intercalate] using h2 a (by simp)
    | cons b tl2 =>
      have ha := h2 a (by simp)
      simp [List.intercalate, List.intersperse_cons_cons, ha]

/-- A serialized row contains no newline when its fields do not. -/
theorem lineOf_no_newline (fs : List (List Char))
    (h : ∀ f ∈ fs, '\n' ∉ f) : '\n' ∉ lineOf fs := by
  intro hmem
  rcases mem_intercalate_cases hmem with hx | ⟨l, hl, hy⟩
  · exact absurd hx (by decide)
  · exact h l hl hy

/-- A serialized row splits back into its fields when the fields are
comma-free and the row is non-empty. -/
theorem lineOf_splitOn (fs : List (List Char)) (hne : fs ≠ [])
    (hf : ∀ f ∈ fs, ',' ∉ f) : (lineOf fs).splitOn ',' = fs :=
  List.splitOn_intercalate fs ',' hf hne

/-- Splitting a newline-terminated block of newline-free lines recovers
the lines, plus one trailing empty chunk for the final newline. -/
theorem flatten_newline_splitOn :
    ∀ (ls : List (List Char)), (∀ l ∈ ls, '\n' ∉ l) →
      ((ls.map (fun l => l ++ ['\n'])).flatten).splitOn '\n' = ls ++ [[]] := by
  intro ls
  induction ls with
  | nil => simp
  | cons a tl ih =>
    intro h
    have ha : '\n' ∉ a := h a (by simp)
    have htl := ih (fun l hl => h l (List.mem_cons_of_mem a hl))
    simp only [List.map_cons, List.flatten_cons, List.append_assoc,
      List.singleton_append]
    rw [List.splitOn, List.splitOnP_first _ _
      (fun x hx => by simp; exact fun he => ha (he ▸ hx)) '\n' (by simp)]
    rw [List.splitOn] at htl
    rw [htl]
    simp

/-- Round trip: parsing the serialized form of a well-formed table with
the comma delimiter returns exactly that table. -/
theorem parse_toCSV (t : Table) (h : wfTable t) :
    parseCSVData ',' (toCSVData t) = some t := by
  obtain ⟨hh, hhf, hr⟩ := h
  have hmap : toCSVData t =
      (((t.header :: t.rows).map lineOf).map (fun l => l ++ ['\n'])).flatten := by
    rw [List.map_map]
    rfl
  have hln : ∀ l ∈ (t.header :: t.rows).map lineOf, '\n' ∉ l := by
    intro l hl
    rw [List.mem_map] at hl
    obtain ⟨fs, hfs, rfl⟩ := hl
    rcases List.mem_cons.mp hfs with rfl | hfs2
    · exact lineOf_no_newline _ (fun f hf => (hhf f hf).2.2)
    · exact lineOf_no_newline _ (fun f hf => ((hr _ hfs2).2 f hf).2.2)
  have hne : ∀ l ∈ (t.header :: t.rows).map lineOf, l ≠ [] := by
    intro l hl
    rw [List.mem_map] at hl
    obtain ⟨fs, hfs, rfl⟩ := hl
    rcases List.mem_cons.mp hfs with rfl | hfs2
    · exact intercalate_ne_nil ',' _ hh (fun f hf => (hhf f hf).1)
    · exact intercalate_ne_nil ',' _ (hr _ hfs2).1
        (fun f hf => ((hr _ hfs2).2 f hf).1)
  unfold parseCSVData
  rw [hmap, flatten_newline_splitOn _ hln, List.filter_append]
  have hfl : ((t.header :: t.rows).map lineOf).filter (fun l => !l.isEmpty) =
      (t.header :: t.rows).map lineOf := by
    rw [List.filter_eq_self]
    intro l hl
    simp [List.isEmpty_iff, hne l hl]
  have hfilnil : ([[]] : List (List Char)).filter (fun l => !l.isEmpty) = [] := rfl
  rw [hfl, hfilnil, List.append_nil, List.map_cons]
  show some ⟨(lineOf t.header).splitOn ',',
    (List.map lineOf t.rows).map (fun r => r.splitOn ',')⟩ = some t
  rw [lineOf_splitOn t.header hh (fun f hf => (hhf f hf).2.1)]
  have hrows : (t.rows.map lineOf).map (fun r => r.splitOn ',') = t.rows := by
    rw [List.map_map]
    have : ∀ r ∈ t.rows, (lineOf r).splitOn ',' = r := fun r hrr =>
      lineOf_splitOn r (hr r hrr).1 (fun f hf => ((hr r hrr).2 f hf).2.1)
    calc t.rows.map ((fun r => r.splitOn ',') ∘ lineOf)
        = t.rows.map id := List.map_congr_left (fun r hrr => this r hrr)
      _ = t.rows := List.map_id t.rows
  rw [hrows]

/-- C7: transform fallback round-trip.  For a source CSV that parses to
a well-formed table `t`: without pandas the output is a gzip whose
decompressed content is the source itself, so it parses back (with the
same delimiter) to exactly `t`; with pandas and a working columnar
backend, reading the columnar output back gives a table with the same
row count and the same column list; with pandas but the columnar backend
unavailable or its write failing, the output is a gzip whose
decompressed content parses back (with pandas' comma) to a table with
the same row count and the same column list — columns pass through
unmodified in every tier. -/
theorem claim_C7_transform_roundtrip (delim : Char) (src : List Char)
    (t : Table) (hparse : parseCSVData delim src = some t)
    (hwf : wfTable t) :
    (∀ pa pw : Bool, ∃ b, transformContent false pa pw delim src = some b ∧
      ∃ d, gunzipData b = some d ∧ parseCSVData delim d = some t) ∧
    (∃ b, transformContent true true true delim src = some b ∧
      ∃ u, readColumnar b = some u ∧
        u.rows.length = t.rows.length ∧ u.header = t.header) ∧
    (∀ pa pw : Bool, pa = false ∨ pw = false →
      ∃ b, transformContent true pa pw delim src = some b ∧
      ∃ d, gunzipData b = some d ∧
      ∃ u, parseCSVData ',' d = some u ∧
        u.rows.length = t.rows.length ∧ u.header = t.header) := by
  refine ⟨?_, ?_, ?_⟩
  · intro pa pw
    exact ⟨.gz src, by simp [transformContent], src, rfl, hparse⟩
  · refine ⟨.pq t, ?_, t, rfl, rfl, rfl⟩
    simp [transformContent, hparse]
  · intro pa pw hfb
    refine ⟨.gz (toCSVData t), ?_, toCSVData t, rfl, t, parse_toCSV t hwf,
      rfl, rfl⟩
    have hpapw : (pa && pw) = false := by
      rcases hfb with h | h <;> simp [h]
    simp [transformContent, hparse, hpapw]

/-- Source CSV for the C7 witness: the spec's concrete three-row
scenario. -/
def csvSrcW : List Char :=
  ("id,name,amount\n1,Alice,10\n2,Bob,15\n3,Carol,20\n" : String).data

/-- The table the witness CSV parses to. -/
def csvTableW : Table :=
  ⟨[("id" : String).data, ("name" : String).data, ("amount" : String).data],
   [[("1" : String).data, ("Alice" : String).data, ("10" : String).data],
    [("2" : String).data, ("Bob" : String).data, ("15" : String).data],
    [("3" : String).data, ("Carol" : String).data, ("20" : String).data]]⟩

/-- C7 witness: the claim theorem instantiated at the concrete CSV, with
both hypotheses discharged by evaluation. -/
theorem claim_C7_transform_roundtrip_witness :
    (∀ pa pw : Bool, ∃ b,
      transformContent false pa pw ',' csvSrcW = some b ∧
      ∃ d, gunzipData b = some d ∧ parseCSVData ',' d = some csvTableW) ∧
    (∃ b, transformContent true true true ',' csvSrcW = some b ∧
      ∃ u, readColumnar b = some u ∧
        u.rows.length = csvTableW.rows.length ∧
        u.header = csvTableW.header) ∧
    (∀ pa pw : Bool, pa = false ∨ pw = false →
      ∃ b, transformContent true pa pw ',' csvSrcW = some b ∧
      ∃ d, gunzipData b = some d ∧
      ∃ u, parseCSVData ',' d = some u ∧
        u.rows.length = csvTableW.rows.length ∧
        u.header = csvTableW.header) :=
  claim_C7_transform_roundtrip ',' csvSrcW csvTableW (by decide) (by decide)

end BatchIngest
